import Mathlib

/-!
Verification of the harv-v2 enhanced memory system.

Shallow embedding of the relevant parts of the backend:
* `backend/app/services/openai_service.py` — `_analyze_socratic_compliance`
* `backend/app/services/memory_service.py` — `EnhancedMemoryService`
  (context assembly, the four memory layers, persistence)
* `backend/app/api/v1/endpoints/modules.py` — `calculate_real_progress`

Python strings are modelled as Lean `String`s (operating on `String.data`,
the underlying character list), Python floats as `ℚ`, database tables as
Lean lists of records, and the SQLAlchemy session as an explicit state
value threaded through the operations that can modify it.
-/

namespace HarvV2

/-! ### Python string primitives -/

/-- `startsWithL pat s` : `pat` is an initial segment of `s` (char lists). -/
def startsWithL : List Char → List Char → Bool
  | [], _ => true
  | _ :: _, [] => false
  | p :: ps, c :: cs => p == c && startsWithL ps cs

/-- `hasSub pat s` : `pat` occurs contiguously inside `s` (models Python `in`). -/
def hasSub (pat : List Char) : List Char → Bool
  | [] => startsWithL pat []
  | c :: cs => startsWithL pat (c :: cs) || hasSub pat cs

/-- Python `pat in s` on strings. -/
def occursIn (pat s : String) : Bool := hasSub pat.data s.data

/-- Python `s.split(".")` on the character list: split at every `'.'`,
keeping empty segments, exactly as `str.split` with an explicit separator. -/
def splitDot : List Char → List (List Char)
  | [] => [[]]
  | c :: cs =>
    if c = '.' then [] :: splitDot cs
    else
      match splitDot cs with
      | [] => [[c]]
      | h :: t => (c :: h) :: t

/-- A segment survives Python `s.strip()` as nonempty iff it holds some
non-whitespace character. -/
def hasNonWs (seg : List Char) : Bool := seg.any (fun c => !c.isWhitespace)

/-- Word counter: number of maximal non-whitespace runs, i.e. `len(s.split())`
in Python. The boolean argument records whether we are inside a word. -/
def wordCountAux : Bool → List Char → Nat
  | _, [] => 0
  | inw, c :: cs =>
    if c.isWhitespace then wordCountAux false cs
    else (if inw then 0 else 1) + wordCountAux true cs

/-- Python `len(s.split())`. -/
def wordCount (s : String) : Nat := wordCountAux false s.data

/-- Python `s.lower()` restricted to the ASCII strings this code base uses. -/
def lowerStr (s : String) : String := ⟨s.data.map Char.toLower⟩

/-- Python `s.count(pat)` for a nonempty `pat`: left-to-right scan counting
non-overlapping occurrences. The fuel argument (instantiated with the length
of `s`) makes the skip after a match structurally terminating. -/
def countSubAux (pat : List Char) : Nat → List Char → Nat
  | 0, _ => 0
  | _ + 1, [] => 0
  | fuel + 1, c :: cs =>
    if startsWithL pat (c :: cs) then
      1 + countSubAux pat fuel (List.drop (pat.length - 1) cs)
    else countSubAux pat fuel cs

/-- Python `s.count(pat)` (used by the context-metrics layer breakdown). -/
def countSub (pat s : String) : Nat := countSubAux pat.data s.data.length s.data

/-- Python `"\n".join(sections)`. -/
def joinNL : List String → String
  | [] => ""
  | [x] => x
  | x :: xs => x ++ "\n" ++ joinNL xs

/-- Python `l[-n:]`: the last `n` elements (all of them when `l` is shorter). -/
def lastN (n : Nat) (l : List α) : List α := l.drop (l.length - n)

/-! ### `openai_service.py` — `OpenAIService._analyze_socratic_compliance`

Source: `backend/app/services/openai_service.py`, lines 259–317. -/

/-- Result record of `_analyze_socratic_compliance` (the `SocraticAnalysis`
dataclass fields actually produced there). -/
structure SocraticAnalysis where
  question_count : Nat
  socratic_compliance : String
  engagement_level : String
  teaching_approach : String
  effectiveness_score : ℚ
  has_direct_answers : Bool
  improvement_suggestions : List String
deriving DecidableEq, Repr

/-- `question_count = ai_response.count("?")`. -/
def questionCount (s : String) : Nat := s.data.count '?'

/-- `sentences = len([s for s in ai_response.split(".") if s.strip()])`. -/
def sentenceCount (s : String) : Nat :=
  ((splitDot s.data).filter hasNonWs).length

/-- `question_ratio = question_count / max(sentences, 1)`. -/
def questionRatio (s : String) : ℚ :=
  (questionCount s : ℚ) / (max (sentenceCount s) 1 : Nat)

/-- The `direct_answer_phrases` blocklist, verbatim from the source. -/
def directAnswerPhrases : List String :=
  ["the answer is", "it is", "this means", "the definition",
   "here's what", "simply put", "in other words"]

/-- `any(phrase in ai_response.lower() for phrase in direct_answer_phrases)`. -/
def hasDirectAnswersIn (aiResponse : String) : Bool :=
  directAnswerPhrases.any (fun p => occursIn p (lowerStr aiResponse))

/-- `_analyze_socratic_compliance(ai_response, user_message)`. The
`user_message` parameter is accepted but unused, as in the source. -/
def analyzeSocraticCompliance (aiResponse : String) (_userMessage : String) :
    SocraticAnalysis :=
  let question_count := questionCount aiResponse
  let ratio := questionRatio aiResponse
  let compliance : String :=
    if ratio ≥ 0.7 then "HIGH" else if ratio ≥ 0.4 then "MEDIUM" else "LOW"
  let effectiveness : ℚ :=
    if ratio ≥ 0.7 then 0.9 else if ratio ≥ 0.4 then 0.7 else 0.4
  let hda := hasDirectAnswersIn aiResponse
  let engagement : String :=
    if question_count ≥ 3 ∧ aiResponse.length > 100 then "HIGH" else "MEDIUM"
  let low := lowerStr aiResponse
  let approach : String :=
    if occursIn "think about" low || occursIn "consider" low then
      "Reflective questioning"
    else if occursIn "example" low || occursIn "imagine" low then
      "Example-based inquiry"
    else "Direct questioning"
  let suggestions : List String :=
    (if question_count < 2 then
      ["Include more questions to guide student thinking"] else []) ++
    (if hda then ["Avoid direct answers - use questions instead"] else []) ++
    (if aiResponse.length < 50 then
      ["Provide more detailed questioning to engage deeper thinking"] else [])
  { question_count := question_count
    socratic_compliance := compliance
    engagement_level := engagement
    teaching_approach := approach
    effectiveness_score := effectiveness
    has_direct_answers := hda
    improvement_suggestions := suggestions }

/-! ### Data model — `backend/app/models/*.py`

Only the columns the verified services read are modelled. Python `None` for a
nullable column is `Option.none`; timestamps are abstract `Nat` ticks whose
`isoformat()` rendering is `toString`. -/

/-- A parsed chat message (one element of `json.loads(messages_json)`). -/
structure Msg where
  role : String
  content : String
deriving DecidableEq, Repr

/-- `users` table (columns read by the memory service). -/
structure User where
  id : Nat
  email : String
  name : String
deriving DecidableEq, Repr

/-- `modules` table (columns read by the memory service). The model class
has no `socratic_intensity`, `allowed_topics`, `memory_context_template` or
`cross_module_references` attribute, so the service's `getattr` defaults for
those are always taken. -/
structure Module where
  id : Nat
  title : String
  description : Option String
  system_prompt : String
  module_prompt : Option String
  learning_objectives : Option String
deriving DecidableEq, Repr

/-- `onboarding_surveys` table. The model has no `background_knowledge` or
`learning_goals` attribute, so the service's `getattr` defaults for those are
always taken. -/
structure OnboardingSurvey where
  user_id : Nat
  learning_style : Option String
  preferred_pace : Option String
deriving DecidableEq, Repr

/-- `conversations` table. `messages_json` is `none` for SQL `NULL` (or an
empty string, both falsy in Python) and `some l` for a JSON document parsing
to the message list `l`. -/
structure Conversation where
  id : Nat
  user_id : Nat
  module_id : Nat
  messages_json : Option (List Msg)
  updated_at : Option Nat
deriving DecidableEq, Repr

/-- `memory_summaries` table. -/
structure MemorySummary where
  user_id : Nat
  module_id : Nat
  what_learned : String
  how_learned : Option String
  connections_made : Option String
  confidence_level : ℚ
  retention_strength : ℚ
  last_accessed : Option String
deriving DecidableEq, Repr

/-- `user_progress` table (columns touched by `update_user_progress`). -/
structure UserProgress where
  user_id : Nat
  module_id : Nat
  completion_percentage : ℚ
  insights_gained : Nat
  questions_asked : Nat
  updated_at : Option String
deriving DecidableEq, Repr

/-- The SQLAlchemy session state: the table contents, plus `failed`, which
models a data source whose queries raise (total data-source failure), and
`now`, the abstract current wall-clock string used by `datetime.now()`. -/
structure DB where
  users : List User
  modules : List Module
  onboarding : List OnboardingSurvey
  conversations : List Conversation
  memory_summaries : List MemorySummary
  user_progress : List UserProgress
  failed : Bool
  now : String
deriving DecidableEq, Repr

/-! ### Small Python-semantics helpers -/

/-- Python `str(x)` rendering of an optional string (`None` prints "None"). -/
def pyStrOpt : Option String → String
  | none => "None"
  | some s => s

/-- Python truthiness of an optional string. -/
def optTruthy : Option String → Bool
  | none => false
  | some s => s ≠ ""

/-- Abstract rendering of `{x:.1f}` / `str(x)` for numbers; the verified
claims never inspect rendered numbers, only structure. -/
def fmtQ (q : ℚ) : String := toString q

/-- Abstract `datetime.isoformat()` of a timestamp tick. -/
def isoStr (n : Nat) : String := toString n

/-- Python `", ".join(l)`. -/
def joinComma : List String → String
  | [] => ""
  | [x] => x
  | x :: xs => x ++ ", " ++ joinComma xs

/-- Stable insertion of `c` into a list sorted descending by `key`
(strictly-greater keys stay ahead; ties keep earlier elements first). -/
def insDesc [LinearOrder β] (key : α → β) (c : α) : List α → List α
  | [] => [c]
  | d :: ds => if key d < key c then c :: d :: ds else d :: insDesc key c ds

/-- Stable sort descending by `key` — models SQL `ORDER BY key DESC`
(tie order is unspecified in SQL; we fix the stable order). -/
def sortDesc [LinearOrder β] (key : α → β) (l : List α) : List α :=
  l.foldr (insDesc key) []

/-- Sort key for `ORDER BY updated_at DESC`; SQL `NULL`s sort last in
descending order on SQLite, modelled as tick `0`. -/
def updKey (c : Conversation) : Nat := c.updated_at.getD 0

/-- Update the first list element satisfying `p` (SQLAlchemy `.first()`
followed by attribute mutation touches exactly one row). -/
def updateFirst (p : α → Bool) (f : α → α) : List α → List α
  | [] => []
  | x :: xs => if p x then f x :: xs else x :: updateFirst p f xs

/-! ### `memory_service.py` — layer output records -/

/-- The `learning_profile` sub-dict of Layer 1. `goals` and `background` come
from `getattr` defaults (the survey model lacks those attributes), so they are
constant whenever a survey row exists or not. -/
structure LearningProfile where
  style : Option String
  pace : Option String
  background : String
  goals : List String
deriving DecidableEq, Repr

/-- One entry of `cross_module_mastery` in Layer 1. -/
structure MasteryEntry where
  module_id : Nat
  last_activity : Option String
  message_count : Nat
  insights_gained : Nat
deriving DecidableEq, Repr

/-- Layer 1 output (`_inject_system_data`). -/
structure SystemData where
  learning_profile : LearningProfile
  cross_module_mastery : List MasteryEntry
  learning_strengths : List String
  mastered_concepts : List (Option String)
deriving DecidableEq, Repr

/-- The `module_info` sub-dict of Layer 2. -/
structure ModuleInfo where
  id : Nat
  title : String
  description : Option String
  objectives : Option String
  progress : ℚ
deriving DecidableEq, Repr

/-- The `teaching_configuration` sub-dict of Layer 2. The exception-fallback
dict carries only the first three keys; the missing keys are modelled by their
defaults, which is unobservable because the assembler reads only
`system_prompt` and `module_prompt` (via `.get`). -/
structure TeachingConfig where
  system_prompt : String
  module_prompt : Option String
  socratic_intensity : String
  allowed_topics : List String
  memory_context_template : String
  cross_module_references : String
deriving DecidableEq, Repr

/-- Layer 2 output (`_inject_module_data`). The `context_rules` dict of
constant booleans is not consumed anywhere and is omitted. -/
structure ModuleData where
  module_info : ModuleInfo
  teaching_configuration : TeachingConfig
  socratic_strategy : String
deriving DecidableEq, Repr

/-- The `conversation_analysis` value of Layer 3: the source returns
differently-shaped dicts per branch, modelled with optional fields. -/
structure ConvAnalysis where
  topic_focus : Option String
  engagement_level : Option String
  question_count : Option Nat
  user_response_length : Option ℚ
  status : Option String
deriving DecidableEq, Repr

/-- Layer 3 output (`_inject_conversation_data`). `conversation_id` is absent
from the dict in the no-conversation and error branches, modelled as `none`. -/
structure ConvData where
  state : String
  message_history : List Msg
  dialogue_context : String
  conversation_analysis : ConvAnalysis
  conversation_id : Option Nat
deriving DecidableEq, Repr

/-- One entry of `prior_module_insights` in Layer 4. -/
structure PriorInsight where
  module_id : Nat
  module_title : String
  key_insight : String
  message_count : Nat
  last_activity : Option String
  connection_strength : ℚ
deriving DecidableEq, Repr

/-- Layer 4 output (`_inject_prior_knowledge`). -/
structure PriorKnowledge where
  prior_module_insights : List PriorInsight
  mastered_concepts : List String
  cross_module_connections : List String
deriving DecidableEq, Repr

/-! ### `memory_service.py` — the four layer loaders -/

/-- `_get_user_safely`: `.first()` on the id filter; any query exception is
caught and yields `None`. -/
def getUserSafely (db : DB) (user_id : Nat) : Option User :=
  if db.failed then none else db.users.find? (fun u => u.id == user_id)

/-- `_get_module_safely`. -/
def getModuleSafely (db : DB) (module_id : Nat) : Option Module :=
  if db.failed then none else db.modules.find? (fun m => m.id == module_id)

/-- `len(json.loads(conv.messages_json)) if conv.messages_json else 0`. -/
def convMessageCount (conv : Conversation) : Nat :=
  (conv.messages_json.getD []).length

/-- Layer 1, `_inject_system_data(user)`; the `except` branch (taken when the
data source fails) returns the hard-coded fallback profile. -/
def injectSystemData (db : DB) (user : User) : SystemData :=
  if db.failed then
    { learning_profile :=
        { style := some "adaptive", pace := some "moderate",
          background := "beginner", goals := ["improve communication skills"] }
      cross_module_mastery := []
      learning_strengths := []
      mastered_concepts := [] }
  else
    let onboarding := db.onboarding.find? (fun o => o.user_id == user.id)
    let completed_conversations :=
      db.conversations.filter (fun c => c.user_id == user.id)
    let memory_summaries :=
      db.memory_summaries.filter (fun m => m.user_id == user.id)
    { learning_profile :=
        { style := match onboarding with
            | none => some "adaptive"
            | some o => o.learning_style
          pace := match onboarding with
            | none => some "moderate"
            | some o => o.preferred_pace
          background := "beginner"
          goals := ["improve communication skills"] }
      cross_module_mastery :=
        (completed_conversations.take 5).map (fun conv =>
          { module_id := conv.module_id
            last_activity := conv.updated_at.map isoStr
            message_count := convMessageCount conv
            insights_gained :=
              (memory_summaries.filter
                (fun m => m.module_id == conv.module_id)).length })
      learning_strengths :=
        (memory_summaries.take 3).map (fun s => s.what_learned)
      mastered_concepts :=
        (memory_summaries.filter (fun s => s.confidence_level > 0.7)).map
          (fun s => s.connections_made) }

/-- `_generate_socratic_strategy(module)`. -/
def generateSocraticStrategy (module : Module) : String :=
  let t := lowerStr module.title
  if occursIn "communication" t then
    "Guide discovery of communication principles through real-world examples"
  else if occursIn "media" t then
    "Question assumptions about media influence and bias"
  else if occursIn "society" t then
    "Explore social connections through critical questioning"
  else "Use strategic questioning to reveal underlying concepts"

/-- Layer 2, `_inject_module_data(module)`. The user-progress query filters
on `module_id` only (as in the source — it does not restrict to the current
user). The source stores the un-awaited coroutine of
`_generate_socratic_strategy`; we model the intended strategy string, whose
content no claim inspects. -/
def injectModuleData (db : DB) (module : Module) : ModuleData :=
  if db.failed then
    { module_info :=
        { id := module.id, title := module.title
          description := some ("Learning module: " ++ module.title)
          objectives := some "Master key concepts through Socratic dialogue"
          progress := 0 }
      teaching_configuration :=
        { system_prompt := "Use Socratic questioning to guide student discovery"
          module_prompt := some "Focus on understanding through guided questions"
          socratic_intensity := "moderate"
          allowed_topics := []
          memory_context_template := ""
          cross_module_references := "" }
      socratic_strategy := "Guide discovery through strategic questioning" }
  else
    let user_progress :=
      db.user_progress.find? (fun p => p.module_id == module.id)
    { module_info :=
        { id := module.id, title := module.title
          description := module.description
          objectives := module.learning_objectives
          progress := match user_progress with
            | none => 0
            | some p => p.completion_percentage }
      teaching_configuration :=
        { system_prompt := module.system_prompt
          module_prompt := module.module_prompt
          socratic_intensity := "moderate"
          allowed_topics := ["communication", "media", "society"]
          memory_context_template :=
            "Remember, this student previously learned {concepts} and responds well to {methods}"
          cross_module_references :=
            "Consider how {concept} from Module {number} relates to what we're exploring now" }
      socratic_strategy := generateSocraticStrategy module }

/-- `_extract_dialogue_context(messages)`. Python's `set()` iteration order is
unspecified; we model it as first-occurrence order (`eraseDups`). -/
def extractDialogueContext (messages : List Msg) : String :=
  if messages = [] then "Beginning new dialogue"
  else
    let recent_topics := (lastN 5 messages).filterMap (fun m =>
      let content := lowerStr m.content
      if occursIn "communication" content then some "communication"
      else if occursIn "media" content then some "media"
      else if occursIn "society" content then some "society"
      else none)
    if recent_topics ≠ [] then
      "Discussing: " ++ joinComma recent_topics.eraseDups
    else "Active dialogue in progress"

/-- `_analyze_conversation_patterns(messages)`. -/
def analyzeConversationPatterns (messages : List Msg) : ConvAnalysis :=
  if messages = [] then
    { topic_focus := some "introduction", engagement_level := some "beginning"
      question_count := none, user_response_length := none, status := none }
  else
    let user_messages := messages.filter (fun m => m.role == "user")
    let ai_messages := messages.filter (fun m => m.role == "assistant")
    { topic_focus := some "communication theory"
      engagement_level :=
        some (if user_messages.length > 3 then "high" else "moderate")
      question_count :=
        some (ai_messages.filter (fun m => occursIn "?" m.content)).length
      user_response_length :=
        some (((user_messages.map (fun m => wordCount m.content)).sum : ℚ) /
          (max user_messages.length 1 : Nat))
      status := none }

/-- The conversation resolution of `_inject_conversation_data`: exact id
match owned by (user, module) when an id is supplied, else the most recently
updated conversation of the pair. -/
def resolveConversation (db : DB) (user_id module_id : Nat)
    (conversation_id : Option Nat) : Option Conversation :=
  let byId : Option Conversation := match conversation_id with
    | none => none
    | some cid => db.conversations.find? (fun c =>
        c.user_id == user_id && c.module_id == module_id && c.id == cid)
  match byId with
  | some c => some c
  | none =>
    (sortDesc updKey (db.conversations.filter (fun c =>
      c.user_id == user_id && c.module_id == module_id))).head?

/-- Layer 3, `_inject_conversation_data(user_id, module_id, conversation_id)`.
A JSON parse failure of `messages_json` yields `[]`, which `some []` also
covers. -/
def injectConversationData (db : DB) (user_id module_id : Nat)
    (conversation_id : Option Nat) : ConvData :=
  if db.failed then
    { state := "error_fallback", message_history := []
      dialogue_context := "Unable to load conversation context"
      conversation_analysis :=
        { topic_focus := none, engagement_level := none, question_count := none
          user_response_length := none, status := some "error" }
      conversation_id := none }
  else
    match resolveConversation db user_id module_id conversation_id with
    | none =>
      { state := "new_conversation", message_history := []
        dialogue_context := "Starting fresh conversation"
        conversation_analysis :=
          { topic_focus := some "introduction"
            engagement_level := some "beginning"
            question_count := none, user_response_length := none
            status := none }
        conversation_id := none }
    | some conv =>
      let messages := conv.messages_json.getD []
      { state := "active_conversation"
        message_history := lastN 10 messages
        dialogue_context := extractDialogueContext messages
        conversation_analysis := analyzeConversationPatterns messages
        conversation_id := some conv.id }

/-- The normalised cross-module connection strength:
`min(message_count / 10.0, 1.0)` (source line 316). -/
def connectionStrength (message_count : Nat) : ℚ :=
  min ((message_count : ℚ) / 10) 1

/-- The insight record Layer 4 builds for a conversation in another module,
provided that module exists (`if module:`). -/
def mkPriorInsight (db : DB) (conv : Conversation) : Option PriorInsight :=
  match db.modules.find? (fun m => m.id == conv.module_id) with
  | none => none
  | some module =>
    let message_count := convMessageCount conv
    some { module_id := conv.module_id
           module_title := module.title
           key_insight := "Previous learning experience with " ++ module.title
           message_count := message_count
           last_activity := conv.updated_at.map isoStr
           connection_strength := connectionStrength message_count }

/-- The `module_insights` dict build: iterate the conversations in descending
`updated_at` order, keeping the first (most recent) per module id; Python
dicts preserve insertion order, modelled by an association list. -/
def buildInsights (db : DB) : List Conversation → List (Nat × PriorInsight) →
    List (Nat × PriorInsight)
  | [], acc => acc
  | conv :: rest, acc =>
    if (acc.find? (fun e => e.1 == conv.module_id)).isSome then
      buildInsights db rest acc
    else
      match mkPriorInsight db conv with
      | none => buildInsights db rest acc
      | some ins => buildInsights db rest (acc ++ [(conv.module_id, ins)])

/-- Layer 4, `_inject_prior_knowledge(user_id, current_module_id)`. -/
def injectPriorKnowledge (db : DB) (user_id current_module_id : Nat) :
    PriorKnowledge :=
  if db.failed then
    { prior_module_insights := []
      mastered_concepts := ["Communication fundamentals", "Critical thinking"]
      cross_module_connections := [] }
  else
    let other := sortDesc updKey (db.conversations.filter (fun c =>
      c.user_id == user_id && c.module_id != current_module_id &&
        c.messages_json.isSome))
    let insights := buildInsights db other []
    let memory_summaries := sortDesc (fun m : MemorySummary => m.confidence_level)
      (db.memory_summaries.filter (fun m => m.user_id == user_id))
    { prior_module_insights := (insights.map (fun e => e.2)).take 3
      mastered_concepts :=
        ((memory_summaries.take 5).filter
          (fun s => s.confidence_level > 0.6)).map (fun s => s.what_learned)
      cross_module_connections :=
        (((memory_summaries.map (fun s => s.connections_made)).filter
          optTruthy).map pyStrOpt).take 3 }

/-! ### `memory_service.py` — prompt assembly -/

/-- `_analyze_current_message(message)`. -/
def analyzeCurrentMessage (message : String) : String :=
  let message_lower := lowerStr message
  if occursIn "?" message then
    "Student is asking - guide with counter-questions"
  else if ["what", "how", "why", "when", "where"].any
      (fun w => occursIn w message_lower) then
    "Exploratory inquiry - use Socratic method"
  else if ["think", "believe", "feel"].any
      (fun w => occursIn w message_lower) then
    "Opinion/reflection - probe deeper reasoning"
  else if wordCount message < 5 then
    "Brief response - encourage elaboration"
  else "Detailed input - identify key concepts to explore"

/-- The `prompt_sections` list of `_assemble_optimized_prompt`, one element
per `prompt_sections.append`, with Python's conditional appends as list
conditionals (truthiness of strings/lists is nonemptiness; of `None`,
falsity). -/
def promptSections (system_data : SystemData) (module_data : ModuleData)
    (conversation_data : ConvData) (prior_knowledge : PriorKnowledge)
    (current_message : String) : List String :=
  let lp := system_data.learning_profile
  let mi := module_data.module_info
  let tc := module_data.teaching_configuration
  ["=== HARV ENHANCED MEMORY CONTEXT ==="]
  ++ ["STUDENT PROFILE: " ++ pyStrOpt lp.style ++ " learner, " ++
      pyStrOpt lp.pace ++ " pace, " ++ lp.background ++ " background"]
  ++ (if lp.goals ≠ [] then
      ["LEARNING GOALS: " ++ joinComma lp.goals] else [])
  ++ (if system_data.cross_module_mastery ≠ [] then
      ["PRIOR EXPERIENCE: " ++ toString system_data.cross_module_mastery.length
        ++ " previous module interactions"] else [])
  ++ ["\nMODULE CONTEXT: " ++ mi.title ++ " - " ++ pyStrOpt mi.description]
  ++ ["LEARNING OBJECTIVES: " ++ pyStrOpt mi.objectives]
  ++ ["PROGRESS: " ++ fmtQ mi.progress ++ "% complete"]
  ++ (if tc.system_prompt ≠ "" then
      ["TEACHING APPROACH: " ++ tc.system_prompt] else [])
  ++ (if optTruthy tc.module_prompt then
      ["MODULE STRATEGY: " ++ pyStrOpt tc.module_prompt] else [])
  ++ ["\nCONVERSATION STATE: " ++ conversation_data.state]
  ++ ["DIALOGUE CONTEXT: " ++ conversation_data.dialogue_context]
  ++ (if conversation_data.message_history ≠ [] then
      ["RECENT MESSAGES: " ++ toString conversation_data.message_history.length
        ++ " messages in conversation"] else [])
  ++ (if prior_knowledge.prior_module_insights ≠ [] then
      ["\nPRIOR LEARNING CONNECTIONS:"] ++
      (prior_knowledge.prior_module_insights.take 2).map (fun insight =>
        "- " ++ insight.module_title ++ ": " ++ insight.key_insight)
      else [])
  ++ (if prior_knowledge.mastered_concepts ≠ [] then
      ["MASTERED CONCEPTS: " ++
        joinComma (prior_knowledge.mastered_concepts.take 3)] else [])
  ++ ["\nSOCRATIC APPROACH: " ++ module_data.socratic_strategy]
  ++ (if current_message ≠ "" then
      ["\nSTUDENT MESSAGE: " ++ current_message,
       "RESPONSE STRATEGY: " ++ analyzeCurrentMessage current_message]
      else [])
  ++ ["\n=== CORE INSTRUCTION ===",
      "Remember: Use Socratic questioning to guide discovery. Never give direct answers.",
      "Focus on asking strategic questions that lead the student to insights.",
      "Build on their prior knowledge and learning style for maximum effectiveness."]

/-- `_assemble_optimized_prompt(...) = "\n".join(prompt_sections)`. -/
def assembleOptimizedPrompt (system_data : SystemData)
    (module_data : ModuleData) (conversation_data : ConvData)
    (prior_knowledge : PriorKnowledge) (current_message : String) : String :=
  joinNL (promptSections system_data module_data conversation_data
    prior_knowledge current_message)

/-- `context_metrics` value. The fallback and error paths return smaller
dicts, modelled with optional fields plus the `error` flag. -/
structure ContextMetrics where
  total_chars : Nat
  word_count : Option Nat
  optimization_score : Option ℚ
  layer_system : Option Nat
  layer_module : Option Nat
  layer_conversation : Option Nat
  layer_prior : Option Nat
  timestamp : Option String
  error : Bool
deriving DecidableEq, Repr

/-- `_calculate_context_metrics(prompt)`. -/
def calculateContextMetrics (db : DB) (prompt : String) : ContextMetrics :=
  { total_chars := prompt.length
    word_count := some (wordCount prompt)
    optimization_score := some (min ((prompt.length : ℚ) / 2000) 1)
    layer_system := some (countSub "STUDENT PROFILE" prompt)
    layer_module := some (countSub "MODULE CONTEXT" prompt)
    layer_conversation := some (countSub "CONVERSATION STATE" prompt)
    layer_prior := some (countSub "PRIOR LEARNING" prompt)
    timestamp := some db.now
    error := false }

/-- `database_status` value; `error` is only set by `_handle_memory_error`. -/
structure DatabaseStatus where
  user_found : Bool
  module_found : Bool
  onboarding_loaded : Option Bool
  module_config_loaded : Option Bool
  conversation_analyzed : Option Bool
  cross_module_connections : Option Bool
  error : Option String
deriving DecidableEq, Repr

/-- The result dict of `assemble_enhanced_context`. `memory_layers` carries
the four layer outputs on the success path; the stub layer dicts of the two
failure paths (never read by any caller of interest) are collapsed to
`none`. -/
structure AssembleResult where
  error : Option String
  assembled_prompt : String
  context_metrics : ContextMetrics
  memory_layers : Option (SystemData × ModuleData × ConvData × PriorKnowledge)
  conversation_id : Option Nat
  database_status : DatabaseStatus
deriving DecidableEq, Repr

/-- `_create_fallback_context(user_id, module_id)` — the global fallback
returned when the user or module cannot be loaded. -/
def createFallbackContext (user_id module_id : Nat) : AssembleResult :=
  { error := none
    assembled_prompt :=
      "Error: Unable to load memory context for user " ++ toString user_id ++
      ", module " ++ toString module_id ++
      ". Proceeding with basic Socratic teaching approach."
    context_metrics :=
      { total_chars := 0, word_count := none, optimization_score := some 0
        layer_system := none, layer_module := none, layer_conversation := none
        layer_prior := none, timestamp := none, error := false }
    memory_layers := none
    conversation_id := none
    database_status :=
      { user_found := false, module_found := false
        onboarding_loaded := some false, module_config_loaded := some false
        conversation_analyzed := some false
        cross_module_connections := some false, error := none } }

/-- `_handle_memory_error(user_id, module_id, error)`; unreachable from the
embedded `assembleEnhancedContext` because every callee already catches its
own failures, mirroring the source where the outer `except` guards against
unexpected exceptions only. -/
def handleMemoryError (_user_id module_id : Nat) (err : String) :
    AssembleResult :=
  { error := some ("Memory assembly failed: " ++ err)
    assembled_prompt :=
      "Unable to load enhanced memory context. Using basic teaching mode for Module "
      ++ toString module_id ++ "."
    context_metrics :=
      { total_chars := 0, word_count := none, optimization_score := none
        layer_system := none, layer_module := none, layer_conversation := none
        layer_prior := none, timestamp := none, error := true }
    memory_layers := none
    conversation_id := none
    database_status :=
      { user_found := false, module_found := false
        onboarding_loaded := none, module_config_loaded := none
        conversation_analyzed := none, cross_module_connections := none
        error := some err } }

/-- `assemble_enhanced_context(user_id, module_id, current_message,
conversation_id)` — the context-assembly entry point. On the success path the
status booleans mirror the source's truthiness checks (`learning_profile` and
`teaching_configuration` are non-empty dict literals, hence always truthy). -/
def assembleEnhancedContext (db : DB) (user_id module_id : Nat)
    (current_message : String) (conversation_id : Option Nat) :
    AssembleResult :=
  match getUserSafely db user_id, getModuleSafely db module_id with
  | some user, some module =>
    let system_data := injectSystemData db user
    let module_data := injectModuleData db module
    let conversation_data :=
      injectConversationData db user_id module_id conversation_id
    let prior_knowledge := injectPriorKnowledge db user_id module_id
    let assembled_prompt := assembleOptimizedPrompt system_data module_data
      conversation_data prior_knowledge current_message
    { error := none
      assembled_prompt := assembled_prompt
      context_metrics := calculateContextMetrics db assembled_prompt
      memory_layers :=
        some (system_data, module_data, conversation_data, prior_knowledge)
      conversation_id := conversation_id
      database_status :=
        { user_found := true, module_found := true
          onboarding_loaded := some true
          module_config_loaded := some true
          conversation_analyzed := some (conversation_data.state ≠ "")
          cross_module_connections :=
            some (prior_knowledge.prior_module_insights ≠ [])
          error := none } }
  | _, _ => createFallbackContext user_id module_id

/-! ### `memory_service.py` — persistence, with explicit session state

These variants return the session state after the call; the assembly
functions above perform only `Session.query(...)` reads, so their
state-passing forms return the input state unchanged (the frame property
claimed about them), while the two persistence methods below are the only
operations that produce a different state. -/

/-- `save_memory_summary(...)`: constructs a new `MemorySummary` row, adds
and commits it (there is no lookup of an existing row for the pair); on a
session failure the exception is caught, the session rolled back, and
`False` returned. -/
def saveMemorySummaryST (user_id module_id : Nat)
    (what_learned how_learned connections_made : String)
    (confidence_level : ℚ) (db : DB) : Bool × DB :=
  if db.failed then (false, db)
  else
    (true, { db with memory_summaries := db.memory_summaries ++
      [{ user_id := user_id, module_id := module_id
         what_learned := what_learned, how_learned := some how_learned
         connections_made := some connections_made
         confidence_level := confidence_level
         retention_strength := 0.9
         last_accessed := some db.now }] })

/-- `update_user_progress(...)`: upsert keyed by `(user_id, module_id)` —
create when absent, else overwrite `completion_percentage` and increment the
counters on the first matching row. -/
def updateUserProgressST (user_id module_id : Nat)
    (completion_percentage : ℚ) (insights_gained questions_asked : Nat)
    (db : DB) : Bool × DB :=
  if db.failed then (false, db)
  else
    match db.user_progress.find? (fun p =>
        p.user_id == user_id && p.module_id == module_id) with
    | none =>
      (true, { db with user_progress := db.user_progress ++
        [{ user_id := user_id, module_id := module_id
           completion_percentage := completion_percentage
           insights_gained := insights_gained
           questions_asked := questions_asked
           updated_at := none }] })
    | some _ =>
      (true, { db with user_progress := (updateFirst
        (fun p => p.user_id == user_id && p.module_id == module_id)
        (fun p => { p with
          completion_percentage := completion_percentage
          insights_gained := p.insights_gained + insights_gained
          questions_asked := p.questions_asked + questions_asked
          updated_at := some db.now })
        db.user_progress) })

/-- State-passing form of `assemble_enhanced_context`: the method's only
session interactions are queries, so the session state is returned as
received. -/
def assembleEnhancedContextST (user_id module_id : Nat)
    (current_message : String) (conversation_id : Option Nat) (db : DB) :
    AssembleResult × DB :=
  (assembleEnhancedContext db user_id module_id current_message
    conversation_id, db)

/-- State-passing forms of the four layer loaders (queries only). -/
def injectSystemDataST (user : User) (db : DB) : SystemData × DB :=
  (injectSystemData db user, db)

/-- See `injectSystemDataST`. -/
def injectModuleDataST (module : Module) (db : DB) : ModuleData × DB :=
  (injectModuleData db module, db)

/-- See `injectSystemDataST`. -/
def injectConversationDataST (user_id module_id : Nat)
    (conversation_id : Option Nat) (db : DB) : ConvData × DB :=
  (injectConversationData db user_id module_id conversation_id, db)

/-- See `injectSystemDataST`. -/
def injectPriorKnowledgeST (user_id current_module_id : Nat) (db : DB) :
    PriorKnowledge × DB :=
  (injectPriorKnowledge db user_id current_module_id, db)

/-! ### `modules.py` — `calculate_real_progress`

Source: `backend/app/api/v1/endpoints/modules.py`, lines 131–174: the
completion/mastery computation from the aggregated activity metrics
(`total_conversations`, `total_messages`, `memory_count`,
`total_time_minutes`) gathered in lines 88–107. `total_time_minutes` is a
float (a sum of clamped session durations), hence modelled as `ℚ`. -/

/-- Python `round(x, 1)` on `ℚ`: round to one decimal, ties to even
(banker's rounding, as CPython's `round`). -/
def pyRound1 (x : ℚ) : ℚ :=
  let y := 10 * x
  let f : ℤ := Int.floor y
  let frac := y - f
  let r : ℤ :=
    if frac < 1 / 2 then f
    else if frac > 1 / 2 then f + 1
    else if f % 2 = 0 then f else f + 1
  (r : ℚ) / 10

/-- Output of `calculate_real_progress` (the two fields the claim is about;
the remaining `UserProgressData` fields echo inputs and recent activity). -/
structure ProgressOut where
  completion_percentage : ℚ
  mastery_level : String
deriving DecidableEq, Repr

/-- Lines 131–149 and 171: the completion factors, their capped sum, the
mastery thresholds, and the one-decimal rounding of the returned
percentage (mastery is derived from the unrounded value, as in the source). -/
def calculateRealProgress (total_conversations total_messages memory_count :
    Nat) (total_time_minutes : ℚ) : ProgressOut :=
  let factor_conversations : ℚ := min ((total_conversations : ℚ) * 20) 30
  let factor_messages : ℚ := min ((total_messages : ℚ) * 2) 25
  let factor_memory : ℚ := min ((memory_count : ℚ) * 15) 30
  let factor_time : ℚ := min (total_time_minutes / 2) 15
  let completion_percentage :=
    min (factor_conversations + factor_messages + factor_memory + factor_time)
      100
  let mastery_level :=
    if completion_percentage ≥ 80 then "advanced"
    else if completion_percentage ≥ 50 then "intermediate"
    else if completion_percentage ≥ 20 then "beginner"
    else "novice"
  { completion_percentage := pyRound1 completion_percentage
    mastery_level := mastery_level }

/-! ### Concrete fixtures used to evaluate the definitions -/

/-- An empty, healthy session. -/
def emptyDB : DB :=
  { users := [], modules := [], onboarding := [], conversations := []
    memory_summaries := [], user_progress := [], failed := false, now := "t0" }

/-- A session whose every query raises (total data-source failure). -/
def dbFailAll : DB := { emptyDB with failed := true }

/-- `n` parsed chat messages. -/
def mkMsgs (n : Nat) : List Msg :=
  List.replicate n { role := "user", content := "hi" }

/-- A populated session: one user, four modules, and one conversation per
module for user 1, with 2, 12, 7 and 25 messages respectively. -/
def dbConvs : DB :=
  { users := [{ id := 1, email := "s@x.edu", name := "Student" }]
    modules :=
      [{ id := 1, title := "Communication Basics", description := some "d1"
         system_prompt := "sp1", module_prompt := some "mp1"
         learning_objectives := some "o1" },
       { id := 2, title := "Media Literacy", description := some "d2"
         system_prompt := "sp2", module_prompt := some "mp2"
         learning_objectives := some "o2" },
       { id := 3, title := "Society and You", description := some "d3"
         system_prompt := "sp3", module_prompt := some "mp3"
         learning_objectives := some "o3" },
       { id := 4, title := "Advanced Theory", description := some "d4"
         system_prompt := "sp4", module_prompt := some "mp4"
         learning_objectives := some "o4" }]
    onboarding := []
    conversations :=
      [{ id := 5, user_id := 1, module_id := 1
         messages_json := some (mkMsgs 2), updated_at := some 10 },
       { id := 6, user_id := 1, module_id := 2
         messages_json := some (mkMsgs 12), updated_at := some 20 },
       { id := 7, user_id := 1, module_id := 3
         messages_json := some (mkMsgs 7), updated_at := some 30 },
       { id := 8, user_id := 1, module_id := 4
         messages_json := some (mkMsgs 25), updated_at := some 40 }]
    memory_summaries := [], user_progress := [], failed := false
    now := "t1" }

/-! ## Supporting lemmas -/

theorem startsWithL_self : ∀ l : List Char, startsWithL l l = true
  | [] => rfl
  | c :: cs => by simp [startsWithL, startsWithL_self cs]

theorem startsWithL_nil_pat (s : List Char) : startsWithL [] s = true := by
  cases s <;> rfl

theorem startsWithL_of_nil {p : List Char} (h : startsWithL p [] = true) :
    p = [] := by
  cases p with
  | nil => rfl
  | cons c cs => simp [startsWithL] at h

theorem startsWithL_append {p : List Char} :
    ∀ {a : List Char} (b : List Char),
      startsWithL p a = true → startsWithL p (a ++ b) = true := by
  induction p with
  | nil => intro a b _; exact startsWithL_nil_pat _
  | cons x ps ih =>
    intro a b h
    cases a with
    | nil => simp [startsWithL] at h
    | cons c cs =>
      simp only [startsWithL, Bool.and_eq_true] at h
      simpa [startsWithL, h.1] using ih b h.2

theorem hasSub_nil_pat (s : List Char) : hasSub [] s = true := by
  cases s with
  | nil => rfl
  | cons c cs => simp [hasSub, startsWithL_nil_pat]

theorem hasSub_of_startsWithL {p s : List Char}
    (h : startsWithL p s = true) : hasSub p s = true := by
  cases s with
  | nil => simpa [hasSub] using h
  | cons c cs => simp [hasSub, h]

theorem hasSub_append_left {p : List Char} :
    ∀ {a : List Char} (b : List Char),
      hasSub p a = true → hasSub p (a ++ b) = true := by
  intro a
  induction a with
  | nil =>
    intro b h
    have hp : p = [] := startsWithL_of_nil (by simpa [hasSub] using h)
    subst hp
    exact hasSub_nil_pat _
  | cons c cs ih =>
    intro b h
    simp only [hasSub, Bool.or_eq_true] at h
    rcases h with h1 | h2
    · exact hasSub_of_startsWithL (startsWithL_append b h1)
    · have := ih b h2
      simp [hasSub, List.cons_append] at this ⊢
      exact Or.inr this

theorem hasSub_append_right {p : List Char} (a : List Char) :
    ∀ {b : List Char}, hasSub p b = true → hasSub p (a ++ b) = true := by
  induction a with
  | nil => intro b h; simpa using h
  | cons c cs ih =>
    intro b h
    simp only [List.cons_append, hasSub, Bool.or_eq_true]
    exact Or.inr (ih h)

theorem occursIn_append_left {p a : String} (b : String)
    (h : occursIn p a = true) : occursIn p (a ++ b) = true := by
  simpa [occursIn, String.data_append] using hasSub_append_left b.data h

theorem occursIn_append_right {p : String} (a : String) {b : String}
    (h : occursIn p b = true) : occursIn p (a ++ b) = true := by
  simpa [occursIn, String.data_append] using hasSub_append_right a.data h

theorem occursIn_of_nil {p : String} (h : occursIn p "" = true)
    (s : String) : occursIn p s = true := by
  have hp : p.data = [] := startsWithL_of_nil (by simpa [occursIn, hasSub] using h)
  simpa [occursIn, hp] using hasSub_nil_pat s.data

theorem joinNL_append :
    ∀ (l1 l2 : List String), l1 ≠ [] → l2 ≠ [] →
      joinNL (l1 ++ l2) = joinNL l1 ++ "\n" ++ joinNL l2 := by
  intro l1
  induction l1 with
  | nil => intro l2 h1 _; exact absurd rfl h1
  | cons x xs ih =>
    intro l2 _ h2
    cases xs with
    | nil =>
      cases l2 with
      | nil => exact absurd rfl h2
      | cons y ys => simp [joinNL]
    | cons z zs =>
      have h3 := ih l2 (by simp) h2
      simp only [List.cons_append] at h3 ⊢
      rw [show joinNL (x :: z :: (zs ++ l2)) =
            x ++ "\n" ++ joinNL (z :: (zs ++ l2)) from rfl, h3,
          show joinNL (x :: z :: zs) = x ++ "\n" ++ joinNL (z :: zs) from rfl]
      simp [String.append_assoc]

theorem occursIn_joinNL_left {p : String} (l1 l2 : List String)
    (h : occursIn p (joinNL l1) = true) :
    occursIn p (joinNL (l1 ++ l2)) = true := by
  cases l2 with
  | nil => simpa using h
  | cons y ys =>
    cases l1 with
    | nil => exact occursIn_of_nil (by simpa [joinNL] using h) _
    | cons x xs =>
      rw [joinNL_append (x :: xs) (y :: ys) (by simp) (by simp)]
      exact occursIn_append_left _ (occursIn_append_left _ h)

theorem occursIn_joinNL_right {p : String} (l1 l2 : List String)
    (h : occursIn p (joinNL l2) = true) :
    occursIn p (joinNL (l1 ++ l2)) = true := by
  cases l1 with
  | nil => simpa using h
  | cons x xs =>
    cases l2 with
    | nil => exact occursIn_of_nil (by simpa [joinNL] using h) _
    | cons y ys =>
      rw [joinNL_append (x :: xs) (y :: ys) (by simp) (by simp)]
      exact occursIn_append_right _ h

theorem occursIn_joinNL_single {p x : String} (h : occursIn p x = true) :
    occursIn p (joinNL [x]) = true := by simpa [joinNL] using h

theorem joinNL_head_length :
    ∀ (x : String) (xs : List String),
      x.length ≤ (joinNL (x :: xs)).length := by
  intro x xs
  cases xs with
  | nil => simp [joinNL]
  | cons y ys =>
    simp only [joinNL, String.length_append]
    omega

theorem occursIn_joinNL_head {p x : String} (xs : List String)
    (h : occursIn p x = true) : occursIn p (joinNL (x :: xs)) = true := by
  cases xs with
  | nil => simpa [joinNL] using h
  | cons y ys =>
    rw [show joinNL (x :: y :: ys) = x ++ "\n" ++ joinNL (y :: ys) from rfl]
    exact occursIn_append_left _ (occursIn_append_left _ h)

theorem length_append_pos_left {a : String} (b : String)
    (h : 0 < a.length) : 0 < (a ++ b).length := by
  rw [String.length_append]; omega

theorem joinNL_length_left (l1 l2 : List String)
    (h : 0 < (joinNL l1).length) : 0 < (joinNL (l1 ++ l2)).length := by
  cases l2 with
  | nil => simpa using h
  | cons y ys =>
    cases l1 with
    | nil => simp [joinNL] at h
    | cons x xs =>
      rw [joinNL_append (x :: xs) (y :: ys) (by simp) (by simp)]
      simp only [String.length_append]
      omega

theorem pyRound1_half_int (x : ℚ) (n : ℤ) (h : 2 * x = (n : ℚ)) :
    pyRound1 x = x := by
  have h10 : (10 : ℚ) * x = ((5 * n : ℤ) : ℚ) := by push_cast; linarith
  simp only [pyRound1, h10, Int.floor_intCast, sub_self]
  norm_num
  linarith

theorem twice_int_min {a b : ℚ} (ha : ∃ i : ℤ, 2 * a = (i : ℚ))
    (hb : ∃ i : ℤ, 2 * b = (i : ℚ)) : ∃ i : ℤ, 2 * min a b = (i : ℚ) := by
  rcases ha with ⟨i, hi⟩
  rcases hb with ⟨j, hj⟩
  rcases le_total a b with h | h
  · exact ⟨i, by rw [min_eq_left h]; exact hi⟩
  · exact ⟨j, by rw [min_eq_right h]; exact hj⟩

theorem twice_int_add {a b : ℚ} (ha : ∃ i : ℤ, 2 * a = (i : ℚ))
    (hb : ∃ i : ℤ, 2 * b = (i : ℚ)) : ∃ i : ℤ, 2 * (a + b) = (i : ℚ) := by
  rcases ha with ⟨i, hi⟩
  rcases hb with ⟨j, hj⟩
  exact ⟨i + j, by push_cast; linarith⟩

/-! ## Claim theorems -/

/-- Claim C4: the compliance analyzer counts `question_count` as the number
of `'?'` characters, computes `question_ratio = question_count /
max(sentence_count, 1)`, and classifies HIGH at ratio ≥ 0.7, MEDIUM at
≥ 0.4, LOW otherwise; a reply with 3 `'?'` across 4 sentences gives ratio
0.75 and HIGH, a reply with 0 `'?'` gives LOW, and the empty reply gives the
LOW / zero-question default (the embedded analyzer is total, so no exception
is possible). -/
theorem c4_socratic_compliance (reply um : String) :
    (analyzeSocraticCompliance reply um).question_count = reply.data.count '?'
  ∧ questionRatio reply =
      (reply.data.count '?' : ℚ) / (max (sentenceCount reply) 1 : Nat)
  ∧ (analyzeSocraticCompliance reply um).socratic_compliance =
      (if questionRatio reply ≥ 0.7 then "HIGH"
       else if questionRatio reply ≥ 0.4 then "MEDIUM" else "LOW")
  ∧ (reply.data.count '?' = 0 →
      (analyzeSocraticCompliance reply um).socratic_compliance = "LOW")
  ∧ questionRatio "Why?. How?. What?. Here." = 3 / 4
  ∧ (analyzeSocraticCompliance
      "Why?. How?. What?. Here." "").socratic_compliance = "HIGH"
  ∧ (analyzeSocraticCompliance "" "").question_count = 0
  ∧ (analyzeSocraticCompliance "" "").socratic_compliance = "LOW" := by
  have hq3 : questionCount "Why?. How?. What?. Here." = 3 := by decide
  have hs4 : sentenceCount "Why?. How?. What?. Here." = 4 := by decide
  have hr34 : questionRatio "Why?. How?. What?. Here." = 3 / 4 := by
    simp only [questionRatio, hq3, hs4]
    norm_num
  have hr0 : questionRatio "" = 0 := by
    have : questionCount "" = 0 := by decide
    simp [questionRatio, this]
  refine ⟨rfl, rfl, rfl, ?_, hr34, ?_, rfl, ?_⟩
  · intro h0
    have hr : questionRatio reply = 0 := by
      simp [questionRatio, questionCount, h0]
    simp only [analyzeSocraticCompliance, hr]
    norm_num
  · simp only [analyzeSocraticCompliance, hr34]
    norm_num
  · simp only [analyzeSocraticCompliance, hr0]
    norm_num

/-- Claim C4 witness: the zero-question hypothesis discharged at the concrete
reply "No questions here.". -/
theorem c4_witness :
    (analyzeSocraticCompliance "No questions here." "u").question_count =
      ("No questions here." : String).data.count '?'
  ∧ questionRatio "No questions here." =
      (("No questions here." : String).data.count '?' : ℚ) /
        (max (sentenceCount "No questions here.") 1 : Nat)
  ∧ (analyzeSocraticCompliance "No questions here." "u").socratic_compliance =
      (if questionRatio "No questions here." ≥ 0.7 then "HIGH"
       else if questionRatio "No questions here." ≥ 0.4 then "MEDIUM"
       else "LOW")
  ∧ (analyzeSocraticCompliance "No questions here." "u").socratic_compliance =
      "LOW" := by
  have h := c4_socratic_compliance "No questions here." "u"
  exact ⟨h.1, h.2.1, h.2.2.1, h.2.2.2.1 (by decide)⟩

/-- Claim C9: `effectiveness_score` is monotone in the question ratio (under
absence of blocklisted direct-answer phrases in the better reply), a
HIGH-compliance reply scores 0.9, and 0.9 bounds every reply's score, so
HIGH with no direct answer attains the highest score. -/
theorem c9_effectiveness_monotone (r1 r2 u1 u2 : String)
    (hr : questionRatio r2 ≤ questionRatio r1)
    (_hd : hasDirectAnswersIn r1 = false) :
    (analyzeSocraticCompliance r2 u2).effectiveness_score ≤
      (analyzeSocraticCompliance r1 u1).effectiveness_score
  ∧ ((analyzeSocraticCompliance r1 u1).socratic_compliance = "HIGH" →
      (analyzeSocraticCompliance r1 u1).effectiveness_score = 0.9)
  ∧ (analyzeSocraticCompliance r2 u2).effectiveness_score ≤ 0.9 := by
  refine ⟨?_, ?_, ?_⟩
  · simp only [analyzeSocraticCompliance]
    split_ifs <;> linarith
  · simp only [analyzeSocraticCompliance]
    split_ifs <;> intro hc <;> first | rfl | exact absurd hc (by decide)
  · simp only [analyzeSocraticCompliance]
    split_ifs <;> norm_num

/-- Claim C9 witness: the hypotheses discharged at the concrete replies
"Why?. How?" (ratio 1, HIGH, no direct answers) and "No questions here."
(ratio 0). -/
theorem c9_witness :
    (analyzeSocraticCompliance "No questions here." "").effectiveness_score ≤
      (analyzeSocraticCompliance "Why?. How?" "").effectiveness_score
  ∧ ((analyzeSocraticCompliance "Why?. How?" "").socratic_compliance = "HIGH" →
      (analyzeSocraticCompliance "Why?. How?" "").effectiveness_score = 0.9)
  ∧ (analyzeSocraticCompliance "No questions here." "").effectiveness_score ≤
      0.9 :=
  c9_effectiveness_monotone "Why?. How?" "No questions here." "" ""
    (by
      have h1 : questionCount "No questions here." = 0 := by decide
      have h2 : sentenceCount "No questions here." = 1 := by decide
      have h3 : questionCount "Why?. How?" = 2 := by decide
      have h4 : sentenceCount "Why?. How?" = 2 := by decide
      simp only [questionRatio, h1, h2, h3, h4]
      norm_num)
    (by decide)

/-- Claim C5 counterexample: `save_memory_summary` called with
confidence = 1.4 on the empty session stores 1.4, not the claimed clamped
value 1.0. -/
theorem c5_counterexample :
    ((saveMemorySummaryST 1 1 "w" "h" "c" (14 / 10) emptyDB).2.memory_summaries.map
      (fun s => s.confidence_level)) = [14 / 10] ∧ ((14 : ℚ) / 10) ≠ 1 := by
  constructor
  · rfl
  · norm_num

/-- Claim C5 (amended): `save_memory_summary` stores the confidence value
exactly as passed — no clamping to [0,1] is performed (range enforcement in
this code base exists only as rejection in the API schema, not in the
service) — and reports success on a healthy session. -/
theorem c5_no_clamp (db : DB) (uid mid : Nat) (w h c : String) (conf : ℚ)
    (hf : db.failed = false) :
    (saveMemorySummaryST uid mid w h c conf db).1 = true
  ∧ (saveMemorySummaryST uid mid w h c conf db).2.memory_summaries =
      db.memory_summaries ++
        [{ user_id := uid, module_id := mid, what_learned := w
           how_learned := some h, connections_made := some c
           confidence_level := conf, retention_strength := 0.9
           last_accessed := some db.now }] := by
  simp [saveMemorySummaryST, hf]

/-- Claim C5 witness: the amended statement evaluated on the empty session
with confidence 1.4. -/
theorem c5_witness :
    (saveMemorySummaryST 1 1 "w" "h" "c" (14 / 10) emptyDB).1 = true
  ∧ (saveMemorySummaryST 1 1 "w" "h" "c" (14 / 10) emptyDB).2.memory_summaries =
      emptyDB.memory_summaries ++
        [{ user_id := 1, module_id := 1, what_learned := "w"
           how_learned := some "h", connections_made := some "c"
           confidence_level := 14 / 10, retention_strength := 0.9
           last_accessed := some emptyDB.now }] :=
  c5_no_clamp emptyDB 1 1 "w" "h" "c" (14 / 10) rfl

/-- Claim C6 counterexample: two identical `save_memory_summary` calls for
(user 1, module 1) on the empty session leave two rows for that pair, not
the claimed single upserted row. -/
theorem c6_counterexample :
    ((saveMemorySummaryST 1 1 "w" "h" "c" (4 / 5)
        ((saveMemorySummaryST 1 1 "w" "h" "c" (4 / 5) emptyDB).2)).2.memory_summaries.filter
      (fun s => s.user_id == 1 && s.module_id == 1)).length = 2
  ∧ (2 : Nat) ≠ 1 := by
  constructor
  · rfl
  · omega

/-- Claim C6 (amended): `save_memory_summary` always inserts a fresh row —
there is no lookup of an existing (user_id, module_id) row — so two identical
calls append two identical rows; upsert-by-(user_id, module_id) semantics
exist only in `update_user_progress`. -/
theorem c6_insert_not_upsert (db : DB) (uid mid : Nat) (w h c : String)
    (conf : ℚ) (hf : db.failed = false) :
    (saveMemorySummaryST uid mid w h c conf
        ((saveMemorySummaryST uid mid w h c conf db).2)).2.memory_summaries =
      db.memory_summaries ++
        [{ user_id := uid, module_id := mid, what_learned := w
           how_learned := some h, connections_made := some c
           confidence_level := conf, retention_strength := 0.9
           last_accessed := some db.now },
         { user_id := uid, module_id := mid, what_learned := w
           how_learned := some h, connections_made := some c
           confidence_level := conf, retention_strength := 0.9
           last_accessed := some db.now }] := by
  simp [saveMemorySummaryST, hf]

/-- Claim C6 witness: the amended statement evaluated on the empty session. -/
theorem c6_witness :
    (saveMemorySummaryST 1 1 "w" "h" "c" (4 / 5)
        ((saveMemorySummaryST 1 1 "w" "h" "c" (4 / 5) emptyDB).2)).2.memory_summaries =
      emptyDB.memory_summaries ++
        [{ user_id := 1, module_id := 1, what_learned := "w"
           how_learned := some "h", connections_made := some "c"
           confidence_level := 4 / 5, retention_strength := 0.9
           last_accessed := some emptyDB.now },
         { user_id := 1, module_id := 1, what_learned := "w"
           how_learned := some "h", connections_made := some "c"
           confidence_level := 4 / 5, retention_strength := 0.9
           last_accessed := some emptyDB.now }] :=
  c6_insert_not_upsert emptyDB 1 1 "w" "h" "c" (4 / 5) rfl

/-- Claim C10: context assembly is read-only — the state-passing forms of
`assemble_enhanced_context` and of all four layer loaders return the session
state unchanged; only the explicit persistence operations
(`saveMemorySummaryST`, `updateUserProgressST`) produce a new state. -/
theorem c10_assembly_read_only (db : DB) (uid mid : Nat) (msg : String)
    (cid : Option Nat) (user : User) (module : Module) :
    (assembleEnhancedContextST uid mid msg cid db).2 = db
  ∧ (injectSystemDataST user db).2 = db
  ∧ (injectModuleDataST module db).2 = db
  ∧ (injectConversationDataST uid mid cid db).2 = db
  ∧ (injectPriorKnowledgeST uid mid db).2 = db :=
  ⟨rfl, rfl, rfl, rfl, rfl⟩

/-- Claim C3 counterexample: at conversations = messages = memory_count = 0
and total_time_minutes = 1/50, the code returns the formula value rounded to
one decimal (0.0), not the formula value 1/100 itself. -/
theorem c3_counterexample :
    (calculateRealProgress 0 0 0 (1 / 50)).completion_percentage ≠
      min (min ((0 : ℚ) * 20) 30 + min ((0 : ℚ) * 2) 25 + min ((0 : ℚ) * 15) 30
        + min (((1 : ℚ) / 50) / 2) 15) 100 := by
  have hfl : Int.floor ((10 : ℚ) * (1 / 100)) = 0 := by
    rw [show (10 : ℚ) * (1 / 100) = 1 / 10 by norm_num, Int.floor_eq_zero_iff]
    constructor <;> norm_num
  simp only [calculateRealProgress]
  norm_num [min_def]
  simp only [pyRound1]
  rw [show (10 : ℚ) * (1 / 100) = 1 / 10 by norm_num] at hfl ⊢
  simp only [hfl]
  norm_num

/-- Claim C3 (amended): `calculate_real_progress` returns the canonical
completion formula value rounded to one decimal (`round(x, 1)`), with
`mastery_level` derived from the unrounded value by the ≥80/≥50/≥20
thresholds; for integer `total_time_minutes` the rounding is the identity, so
the formula holds exactly there, and the claim's examples hold:
(2, 15, 1, 40) ↦ 85.0 "advanced" and (0, 0, 0, 0) ↦ 0.0 "novice". -/
theorem c3_progress_formula (c m k : ℕ) (t : ℚ) :
    (calculateRealProgress c m k t).completion_percentage =
      pyRound1 (min (min ((c : ℚ) * 20) 30 + min ((m : ℚ) * 2) 25
        + min ((k : ℚ) * 15) 30 + min (t / 2) 15) 100)
  ∧ (calculateRealProgress c m k t).mastery_level =
      (if min (min ((c : ℚ) * 20) 30 + min ((m : ℚ) * 2) 25
          + min ((k : ℚ) * 15) 30 + min (t / 2) 15) 100 ≥ 80 then "advanced"
       else if min (min ((c : ℚ) * 20) 30 + min ((m : ℚ) * 2) 25
          + min ((k : ℚ) * 15) 30 + min (t / 2) 15) 100 ≥ 50 then "intermediate"
       else if min (min ((c : ℚ) * 20) 30 + min ((m : ℚ) * 2) 25
          + min ((k : ℚ) * 15) 30 + min (t / 2) 15) 100 ≥ 20 then "beginner"
       else "novice")
  ∧ (∀ tn : ℕ, (calculateRealProgress c m k (tn : ℚ)).completion_percentage =
      min (min ((c : ℚ) * 20) 30 + min ((m : ℚ) * 2) 25
        + min ((k : ℚ) * 15) 30 + min ((tn : ℚ) / 2) 15) 100)
  ∧ (calculateRealProgress 2 15 1 40).completion_percentage = 85
  ∧ (calculateRealProgress 2 15 1 40).mastery_level = "advanced"
  ∧ (calculateRealProgress 0 0 0 0).completion_percentage = 0
  ∧ (calculateRealProgress 0 0 0 0).mastery_level = "novice" := by
  have hNat : ∀ (c' m' k' tn : ℕ),
      (calculateRealProgress c' m' k' (tn : ℚ)).completion_percentage =
        min (min ((c' : ℚ) * 20) 30 + min ((m' : ℚ) * 2) 25
          + min ((k' : ℚ) * 15) 30 + min ((tn : ℚ) / 2) 15) 100 := by
    intro c' m' k' tn
    have e1 : ∃ i : ℤ, 2 * min ((c' : ℚ) * 20) 30 = (i : ℚ) :=
      twice_int_min ⟨40 * (c' : ℤ), by push_cast; ring⟩ ⟨60, by norm_num⟩
    have e2 : ∃ i : ℤ, 2 * min ((m' : ℚ) * 2) 25 = (i : ℚ) :=
      twice_int_min ⟨4 * (m' : ℤ), by push_cast; ring⟩ ⟨50, by norm_num⟩
    have e3 : ∃ i : ℤ, 2 * min ((k' : ℚ) * 15) 30 = (i : ℚ) :=
      twice_int_min ⟨30 * (k' : ℤ), by push_cast; ring⟩ ⟨60, by norm_num⟩
    have e4 : ∃ i : ℤ, 2 * min ((tn : ℚ) / 2) 15 = (i : ℚ) :=
      twice_int_min ⟨(tn : ℤ), by push_cast; ring⟩ ⟨30, by norm_num⟩
    have esum : ∃ i : ℤ,
        2 * (min ((c' : ℚ) * 20) 30 + min ((m' : ℚ) * 2) 25
          + min ((k' : ℚ) * 15) 30 + min ((tn : ℚ) / 2) 15) = (i : ℚ) :=
      twice_int_add (twice_int_add (twice_int_add e1 e2) e3) e4
    have efin : ∃ i : ℤ,
        2 * min (min ((c' : ℚ) * 20) 30 + min ((m' : ℚ) * 2) 25
          + min ((k' : ℚ) * 15) 30 + min ((tn : ℚ) / 2) 15) 100 = (i : ℚ) :=
      twice_int_min esum ⟨200, by norm_num⟩
    obtain ⟨n, hn⟩ := efin
    exact pyRound1_half_int _ n hn
  have hmast : ∀ (c' m' k' : ℕ) (t' : ℚ),
      (calculateRealProgress c' m' k' t').mastery_level =
        (if min (min ((c' : ℚ) * 20) 30 + min ((m' : ℚ) * 2) 25
            + min ((k' : ℚ) * 15) 30 + min (t' / 2) 15) 100 ≥ 80 then
          "advanced"
         else if min (min ((c' : ℚ) * 20) 30 + min ((m' : ℚ) * 2) 25
            + min ((k' : ℚ) * 15) 30 + min (t' / 2) 15) 100 ≥ 50 then
          "intermediate"
         else if min (min ((c' : ℚ) * 20) 30 + min ((m' : ℚ) * 2) 25
            + min ((k' : ℚ) * 15) 30 + min (t' / 2) 15) 100 ≥ 20 then
          "beginner"
         else "novice") :=
    fun _ _ _ _ => rfl
  have h85 := hNat 2 15 1 40
  have h00 := hNat 0 0 0 0
  norm_num [min_def] at h85 h00
  refine ⟨rfl, rfl, hNat c m k, h85, ?_, h00, ?_⟩
  · rw [hmast 2 15 1 40]
    norm_num [min_def]
  · rw [hmast 0 0 0 0]
    norm_num [min_def]

/-- Claim C7 counterexample: a 2-turn conversation and a 12-turn conversation
receive the same state classification "active_conversation" from the
conversation layer — there is no turn-count phase classification producing
"opening" (2 turns) or "deepening" (12 turns). -/
theorem c7_counterexample :
    (injectConversationData dbConvs 1 1 none).state = "active_conversation"
  ∧ (injectConversationData dbConvs 1 1 none).state ≠ "opening"
  ∧ (injectConversationData dbConvs 1 2 none).state = "active_conversation"
  ∧ (injectConversationData dbConvs 1 2 none).state ≠ "deepening" := by
  refine ⟨rfl, ?_, rfl, ?_⟩ <;> decide

/-- Claim C7 (amended): the conversation layer returns the last 10 messages
of the resolved conversation (most recent last, in stored order) together
with a state classification that depends only on whether a conversation
resolved: "active_conversation" when one did, "new_conversation" with empty
history otherwise — not a turn-count phase. -/
theorem c7_conversation_window (db : DB) (uid mid : Nat) (cid : Option Nat)
    (hf : db.failed = false) :
    (∀ conv : Conversation, resolveConversation db uid mid cid = some conv →
      (injectConversationData db uid mid cid).state = "active_conversation"
      ∧ (injectConversationData db uid mid cid).message_history =
          lastN 10 (conv.messages_json.getD [])
      ∧ (injectConversationData db uid mid cid).conversation_id = some conv.id)
  ∧ (resolveConversation db uid mid cid = none →
      (injectConversationData db uid mid cid).state = "new_conversation"
      ∧ (injectConversationData db uid mid cid).message_history = []) := by
  constructor
  · intro conv hc
    simp [injectConversationData, hf, hc]
  · intro hc
    simp [injectConversationData, hf, hc]

/-- Claim C7 witness: the amended statement evaluated on the populated
session, where (user 1, module 1) resolves to conversation 5 with 2
messages. -/
theorem c7_witness :
    (injectConversationData dbConvs 1 1 none).state = "active_conversation"
  ∧ (injectConversationData dbConvs 1 1 none).message_history = mkMsgs 2
  ∧ (injectConversationData dbConvs 1 1 none).conversation_id = some 5 :=
  (c7_conversation_window dbConvs 1 1 none rfl).1
    ⟨5, 1, 1, some (mkMsgs 2), some 10⟩ (by decide)

/-- Every insight record the Layer-4 dict build produces carries
`connection_strength = min(message_count / 10, 1)`. -/
theorem buildInsights_strength (db : DB) :
    ∀ (l : List Conversation) (acc : List (Nat × PriorInsight)),
      (∀ e ∈ acc,
        e.2.connection_strength = connectionStrength e.2.message_count) →
      ∀ e ∈ buildInsights db l acc,
        e.2.connection_strength = connectionStrength e.2.message_count := by
  intro l
  induction l with
  | nil => intro acc hacc e he; exact hacc e he
  | cons conv rest ih =>
    intro acc hacc e he
    rw [buildInsights] at he
    by_cases hmem : (acc.find? (fun x => x.1 == conv.module_id)).isSome
    · rw [if_pos hmem] at he
      exact ih acc hacc e he
    · rw [if_neg hmem] at he
      cases hmk : mkPriorInsight db conv with
      | none =>
        rw [hmk] at he
        exact ih acc hacc e he
      | some ins =>
        rw [hmk] at he
        refine ih _ ?_ e he
        intro e' he'
        rcases List.mem_append.mp he' with h | h
        · exact hacc e' h
        · have he'' : e' = (conv.module_id, ins) := by simpa using h
          subst he''
          simp only [mkPriorInsight] at hmk
          cases hfind : db.modules.find? (fun mo => mo.id == conv.module_id) with
          | none => rw [hfind] at hmk; exact absurd hmk (by simp)
          | some module =>
            rw [hfind] at hmk
            simp only [Option.some.injEq] at hmk
            subst hmk
            rfl

/-- Claim C8: every prior-knowledge insight carries
`connection_strength = min(message_count / 10, 1)`, which always lies in
[0, 1]; in particular 7 messages give 0.7 and 25 messages clamp to 1.0. -/
theorem c8_connection_strength (db : DB) (uid mid : Nat) (ins : PriorInsight)
    (h : ins ∈ (injectPriorKnowledge db uid mid).prior_module_insights) :
    ins.connection_strength = min ((ins.message_count : ℚ) / 10) 1
  ∧ 0 ≤ ins.connection_strength ∧ ins.connection_strength ≤ 1
  ∧ connectionStrength 7 = 7 / 10 ∧ connectionStrength 25 = 1 := by
  have hs : ins.connection_strength = connectionStrength ins.message_count := by
    cases hdb : db.failed with
    | true => simp [injectPriorKnowledge, hdb] at h
    | false =>
      simp only [injectPriorKnowledge, hdb, Bool.false_eq_true,
        if_false] at h
      have h' := List.take_subset 3 _ h
      obtain ⟨e, he, hei⟩ := List.mem_map.mp h'
      have hstr := buildInsights_strength db _ [] (by simp) e he
      rw [← hei]
      exact hstr
  refine ⟨hs, ?_, ?_, ?_, ?_⟩
  · rw [hs]
    simp only [connectionStrength]
    exact le_min (by positivity) (by norm_num)
  · rw [hs]
    simp only [connectionStrength]
    exact min_le_right _ _
  · norm_num [connectionStrength, min_def]
  · norm_num [connectionStrength, min_def]

/-- Claim C8 witness: the populated session's prior-knowledge list for
(user 1, module 1) contains the 7-message insight, whose strength is 0.7;
the 25-message conversation's insight clamps to 1. -/
theorem c8_witness :
    connectionStrength 7 = min ((7 : ℚ) / 10) 1
  ∧ (0 : ℚ) ≤ connectionStrength 7 ∧ connectionStrength 7 ≤ 1
  ∧ connectionStrength 7 = 7 / 10 ∧ connectionStrength 25 = 1 :=
  c8_connection_strength dbConvs 1 1
    ⟨3, "Society and You", "Previous learning experience with Society and You",
      7, some (isoStr 30), connectionStrength 7⟩
    (by
      have hl : (injectPriorKnowledge dbConvs 1 1).prior_module_insights =
        [⟨4, "Advanced Theory",
            "Previous learning experience with Advanced Theory",
            25, some (isoStr 40), connectionStrength 25⟩,
         ⟨3, "Society and You",
            "Previous learning experience with Society and You",
            7, some (isoStr 30), connectionStrength 7⟩,
         ⟨2, "Media Literacy",
            "Previous learning experience with Media Literacy",
            12, some (isoStr 20), connectionStrength 12⟩] := rfl
      rw [hl]
      exact List.mem_cons_of_mem _ (List.mem_cons_self _ _))

set_option maxRecDepth 100000 in
/-- Claim C2 counterexample: with every layer at its fallback value and an
empty current message, the assembled prompt omits both the prior-knowledge
section marker and the current-message echo — the claimed six markers are not
all present. -/
theorem c2_counterexample :
    occursIn "PRIOR LEARNING CONNECTIONS"
      (assembleOptimizedPrompt (injectSystemData dbFailAll ⟨1, "e", "n"⟩)
        (injectModuleData dbFailAll ⟨1, "T", some "d", "sp", some "mp", some "o"⟩)
        (injectConversationData dbFailAll 1 1 none)
        (injectPriorKnowledge dbFailAll 1 1) "") = false
  ∧ occursIn "STUDENT MESSAGE"
      (assembleOptimizedPrompt (injectSystemData dbFailAll ⟨1, "e", "n"⟩)
        (injectModuleData dbFailAll ⟨1, "T", some "d", "sp", some "mp", some "o"⟩)
        (injectConversationData dbFailAll 1 1 none)
        (injectPriorKnowledge dbFailAll 1 1) "") = false := by
  constructor <;> decide

/-- Claim C2 (amended): the assembled prompt always contains the student
profile, module context, conversation state and closing core-instruction
markers, for every combination of layer outputs; the prior-knowledge marker
is emitted only when `prior_module_insights` is nonempty, and the
current-message echo only when the current message is nonempty. -/
theorem c2_prompt_markers (sd : SystemData) (md : ModuleData) (cd : ConvData)
    (pk : PriorKnowledge) (msg : String) :
    occursIn "STUDENT PROFILE"
      (assembleOptimizedPrompt sd md cd pk msg) = true
  ∧ occursIn "MODULE CONTEXT"
      (assembleOptimizedPrompt sd md cd pk msg) = true
  ∧ occursIn "CONVERSATION STATE"
      (assembleOptimizedPrompt sd md cd pk msg) = true
  ∧ occursIn "=== CORE INSTRUCTION ==="
      (assembleOptimizedPrompt sd md cd pk msg) = true
  ∧ (pk.prior_module_insights ≠ [] →
      occursIn "PRIOR LEARNING CONNECTIONS"
        (assembleOptimizedPrompt sd md cd pk msg) = true)
  ∧ (msg ≠ "" →
      occursIn "STUDENT MESSAGE"
        (assembleOptimizedPrompt sd md cd pk msg) = true) := by
  refine ⟨?_, ?_, ?_, ?_, ?_, ?_⟩
  · simp only [assembleOptimizedPrompt, promptSections]
    iterate 15 apply occursIn_joinNL_left
    apply occursIn_joinNL_right
    apply occursIn_joinNL_single
    repeat apply occursIn_append_left
    decide
  · simp only [assembleOptimizedPrompt, promptSections]
    iterate 12 apply occursIn_joinNL_left
    apply occursIn_joinNL_right
    apply occursIn_joinNL_single
    repeat apply occursIn_append_left
    decide
  · simp only [assembleOptimizedPrompt, promptSections]
    iterate 7 apply occursIn_joinNL_left
    apply occursIn_joinNL_right
    apply occursIn_joinNL_single
    repeat apply occursIn_append_left
    decide
  · simp only [assembleOptimizedPrompt, promptSections]
    apply occursIn_joinNL_right
    apply occursIn_joinNL_head
    decide
  · intro h13
    simp only [assembleOptimizedPrompt, promptSections]
    rw [if_pos h13]
    iterate 4 apply occursIn_joinNL_left
    apply occursIn_joinNL_right
    apply occursIn_joinNL_left
    apply occursIn_joinNL_single
    decide
  · intro h16
    simp only [assembleOptimizedPrompt, promptSections]
    rw [if_pos h16]
    apply occursIn_joinNL_left
    apply occursIn_joinNL_right
    apply occursIn_joinNL_head
    apply occursIn_append_left
    decide

/-- Claim C2 witness: the amended statement evaluated on the populated
session's layer outputs with the nonempty message "hello" — all six markers
present. -/
theorem c2_witness :
    occursIn "STUDENT PROFILE"
      (assembleOptimizedPrompt (injectSystemData dbConvs ⟨1, "s@x.edu", "Student"⟩)
        (injectModuleData dbConvs
          ⟨1, "Communication Basics", some "d1", "sp1", some "mp1", some "o1"⟩)
        (injectConversationData dbConvs 1 1 none)
        (injectPriorKnowledge dbConvs 1 1) "hello") = true
  ∧ occursIn "MODULE CONTEXT"
      (assembleOptimizedPrompt (injectSystemData dbConvs ⟨1, "s@x.edu", "Student"⟩)
        (injectModuleData dbConvs
          ⟨1, "Communication Basics", some "d1", "sp1", some "mp1", some "o1"⟩)
        (injectConversationData dbConvs 1 1 none)
        (injectPriorKnowledge dbConvs 1 1) "hello") = true
  ∧ occursIn "CONVERSATION STATE"
      (assembleOptimizedPrompt (injectSystemData dbConvs ⟨1, "s@x.edu", "Student"⟩)
        (injectModuleData dbConvs
          ⟨1, "Communication Basics", some "d1", "sp1", some "mp1", some "o1"⟩)
        (injectConversationData dbConvs 1 1 none)
        (injectPriorKnowledge dbConvs 1 1) "hello") = true
  ∧ occursIn "=== CORE INSTRUCTION ==="
      (assembleOptimizedPrompt (injectSystemData dbConvs ⟨1, "s@x.edu", "Student"⟩)
        (injectModuleData dbConvs
          ⟨1, "Communication Basics", some "d1", "sp1", some "mp1", some "o1"⟩)
        (injectConversationData dbConvs 1 1 none)
        (injectPriorKnowledge dbConvs 1 1) "hello") = true
  ∧ occursIn "PRIOR LEARNING CONNECTIONS"
      (assembleOptimizedPrompt (injectSystemData dbConvs ⟨1, "s@x.edu", "Student"⟩)
        (injectModuleData dbConvs
          ⟨1, "Communication Basics", some "d1", "sp1", some "mp1", some "o1"⟩)
        (injectConversationData dbConvs 1 1 none)
        (injectPriorKnowledge dbConvs 1 1) "hello") = true
  ∧ occursIn "STUDENT MESSAGE"
      (assembleOptimizedPrompt (injectSystemData dbConvs ⟨1, "s@x.edu", "Student"⟩)
        (injectModuleData dbConvs
          ⟨1, "Communication Basics", some "d1", "sp1", some "mp1", some "o1"⟩)
        (injectConversationData dbConvs 1 1 none)
        (injectPriorKnowledge dbConvs 1 1) "hello") = true := by
  have h := c2_prompt_markers (injectSystemData dbConvs ⟨1, "s@x.edu", "Student"⟩)
    (injectModuleData dbConvs
      ⟨1, "Communication Basics", some "d1", "sp1", some "mp1", some "o1"⟩)
    (injectConversationData dbConvs 1 1 none)
    (injectPriorKnowledge dbConvs 1 1) "hello"
  exact ⟨h.1, h.2.1, h.2.2.1, h.2.2.2.1, h.2.2.2.2.1 (by decide),
    h.2.2.2.2.2 (by decide)⟩

/-- Claim C1: for every session state (including sessions whose user or
module records do not exist and sessions whose every query fails), every
current message and every optional conversation id, the context-assembly
entry point returns a result whose prompt is a nonempty string — the
embedded pipeline is a total function, so no exception can propagate — and
under total data-source failure it returns the global fallback result of
`_create_fallback_context`. -/
theorem c1_assemble_total (db : DB) (uid mid : Nat) (msg : String)
    (cid : Option Nat) :
    0 < (assembleEnhancedContext db uid mid msg cid).assembled_prompt.length
  ∧ (db.failed = true →
      assembleEnhancedContext db uid mid msg cid =
        createFallbackContext uid mid) := by
  constructor
  · rcases hu : getUserSafely db uid with _ | user <;>
      rcases hm : getModuleSafely db mid with _ | module <;>
        simp only [assembleEnhancedContext, hu, hm] <;>
          try {
            simp only [createFallbackContext]
            repeat apply length_append_pos_left
            decide }
    simp only [assembleOptimizedPrompt]
    iterate 16 apply joinNL_length_left
    decide
  · intro hf
    have hu : getUserSafely db uid = none := by simp [getUserSafely, hf]
    have hm : getModuleSafely db mid = none := by simp [getModuleSafely, hf]
    simp [assembleEnhancedContext, hu, hm]

/-- Claim C1 witness: the totality statement evaluated on the failing
session, discharging the failure implication: the fallback is returned and
its prompt is nonempty. -/
theorem c1_witness :
    0 < (assembleEnhancedContext dbFailAll 1 2 "" none).assembled_prompt.length
  ∧ assembleEnhancedContext dbFailAll 1 2 "" none =
      createFallbackContext 1 2 :=
  ⟨(c1_assemble_total dbFailAll 1 2 "" none).1,
   (c1_assemble_total dbFailAll 1 2 "" none).2 rfl⟩

end HarvV2


